import Mathlib

/-!
Verification of the biciregistro acquisition pipeline
(`src/app/api/bicycles/route.ts` and `src/app/api/config/colors/route.ts`,
image-proxy half) against its natural-language specification.

The TypeScript is shallowly embedded: network effects are abstracted as
oracle functions supplied to each strategy (a page fetcher, an attempt
outcome stream, a strategy outcome), and the pure record-processing logic
(normalization, filtering, pagination control, retry control) is translated
function by function.
-/

namespace Biciregistro

/-- Prefix test on character lists (model of JavaScript's `startsWith`). -/
def leadsWith : List Char → List Char → Bool
  | [], _ => true
  | _ :: _, [] => false
  | a :: ps, b :: ls => a == b && leadsWith ps ls

/-- Contiguous-substring test on character lists. -/
def hasSub (p : List Char) : List Char → Bool
  | [] => p.isEmpty
  | b :: ls => leadsWith p (b :: ls) || hasSub p ls

/-- Model of JavaScript `s.includes(pat)`. -/
def jsIncludes (s pat : String) : Bool :=
  hasSub pat.data s.data

/-- ASCII lowercase of one character (model of `toLowerCase` on the
character range the filters exercise). -/
def lcChar (c : Char) : Char :=
  if 65 ≤ c.toNat && c.toNat ≤ 90 then Char.ofNat (c.toNat + 32) else c

/-- Model of JavaScript `s.toLowerCase()`. -/
def lowerStr (s : String) : String :=
  String.mk (s.data.map lcChar)

/-- Model of `s.toLowerCase().includes(pat.toLowerCase())`, the
case-insensitive substring test used by every filter in the source. -/
def lcIncludes (s pat : String) : Bool :=
  jsIncludes (lowerStr s) (lowerStr pat)

/-- JavaScript truthiness of a possibly-`undefined` string:
`undefined` and `""` are falsy. -/
def optTruthy (o : Option String) : Bool :=
  o.getD "" != ""

/-- Model of JavaScript `a || b` on possibly-`undefined` strings:
returns `a` when truthy, otherwise `b` as-is. -/
def jsOr (a b : Option String) : Option String :=
  if optTruthy a then a else b

/-- Model of `a || d` where the final operand `d` is a string literal,
so the result is always a defined string. -/
def jsOrD (a : Option String) (d : String) : String :=
  if optTruthy a then a.getD "" else d

/-- Model of `extractText(...) || undefined`: an empty extraction result
turns into `undefined`. -/
def strOrUndef (s : String) : Option String :=
  if s = "" then none else some s

/-- Model of `s || d` on plain strings. -/
def strD (s d : String) : String :=
  if s != "" then s else d

/-- Canonical bicycle record, mirroring `src/types/bicycle.ts`
(`Bicycle` interface; optional fields become `Option String`). -/
structure Bicycle where
  id : String
  marca : String
  modelo : String
  color : String
  numeroSerie : Option String := none
  numeroMatricula : Option String := none
  fechaRobo : Option String := none
  lugarRobo : Option String := none
  ciudad : Option String := none
  provincia : Option String := none
  descripcion : Option String := none
  imagen : Option String := none
  imagenCompleta : Option String := none
  estado : Option String := none
  fechaLocalizacion : Option String := none
  lugarLocalizacion : Option String := none
  deriving Repr, DecidableEq

/-- Search filter set, mirroring `src/types/bicycle.ts` (`SearchFilters`). -/
structure SearchFilters where
  marca : Option String := none
  modelo : Option String := none
  color : Option String := none
  numeroSerie : Option String := none
  numeroMatricula : Option String := none
  ciudad : Option String := none
  provincia : Option String := none
  searchTerm : Option String := none
  deriving Repr, DecidableEq

/-- Model of `b.field?.toLowerCase().includes(x)` used as a filter predicate:
an absent field is falsy, so the filter fails. -/
def optLcIncludes (field : Option String) (pat : String) : Bool :=
  match field with
  | some s => lcIncludes s pat
  | none => false

/-- The general-term disjunction from the Playwright post-filter
(route.ts lines 388-398): OR across marca/modelo/color/ciudad/provincia/descripcion. -/
def generalTermMatch (b : Bicycle) (term : String) : Bool :=
  lcIncludes b.marca term || lcIncludes b.modelo term || lcIncludes b.color term ||
  optLcIncludes b.ciudad term || optLcIncludes b.provincia term ||
  optLcIncludes b.descripcion term

/-- One `if (filters.x) filtered = filtered.filter(...)` step. -/
def filterStep (o : Option String) (g : String → Bicycle → Bool)
    (l : List Bicycle) : List Bicycle :=
  match o with
  | some x => l.filter (g x)
  | none => l

/-- The local post-filter applied by `fetchBicyclesWithPlaywright`
(route.ts lines 364-398), one `filterStep` per supplied filter, in source
order (marca, modelo, color, ciudad, provincia, numeroSerie,
numeroMatricula, searchTerm). -/
def applyFilters (f : SearchFilters) (bicycles : List Bicycle) : List Bicycle :=
  filterStep f.searchTerm (fun t b => generalTermMatch b t)
    (filterStep f.numeroMatricula (fun x b => optLcIncludes b.numeroMatricula x)
      (filterStep f.numeroSerie (fun x b => optLcIncludes b.numeroSerie x)
        (filterStep f.provincia (fun x b => optLcIncludes b.provincia x)
          (filterStep f.ciudad (fun x b => optLcIncludes b.ciudad x)
            (filterStep f.color (fun x b => lcIncludes b.color x)
              (filterStep f.modelo (fun x b => lcIncludes b.modelo x)
                (filterStep f.marca (fun x b => lcIncludes b.marca x) bicycles)))))))

/-- Per-field admissibility of a record under one optional filter, written
from the spec's words (section 4.8): a supplied filter is a case-insensitive
substring test against the corresponding canonical field, and an absent
field makes the filter fail. -/
def fieldFilterOk (filt : Option String) (field : Option String) : Bool :=
  match filt with
  | none => true
  | some x => optLcIncludes field x

/-- Spec-side filter predicate (section 4.8): AND over all supplied
per-field filters, with the general term OR'd across
brand/model/color/city/province/description. -/
def specMatchesFilters (f : SearchFilters) (b : Bicycle) : Bool :=
  fieldFilterOk f.marca (some b.marca) &&
  fieldFilterOk f.modelo (some b.modelo) &&
  fieldFilterOk f.color (some b.color) &&
  fieldFilterOk f.numeroSerie b.numeroSerie &&
  fieldFilterOk f.numeroMatricula b.numeroMatricula &&
  fieldFilterOk f.ciudad b.ciudad &&
  fieldFilterOk f.provincia b.provincia &&
  (match f.searchTerm with
   | none => true
   | some t => generalTermMatch b t)

/-- Raw item of a structured-API response, with every field alias read by
`parseAPIResponse` (route.ts lines 440-455). Absent JSON keys are `none`. -/
structure RawItem where
  id : Option String := none
  idBicicleta : Option String := none
  marca : Option String := none
  brand : Option String := none
  modelo : Option String := none
  model : Option String := none
  color : Option String := none
  numeroSerie : Option String := none
  serialNumber : Option String := none
  numSerie : Option String := none
  numeroMatricula : Option String := none
  registrationNumber : Option String := none
  numMatricula : Option String := none
  ciudad : Option String := none
  city : Option String := none
  provincia : Option String := none
  province : Option String := none
  descripcion : Option String := none
  description : Option String := none
  imagen : Option String := none
  image : Option String := none
  foto : Option String := none
  imagenCompleta : Option String := none
  fechaRobo : Option String := none
  stolenDate : Option String := none
  fechaLocalizacion : Option String := none
  foundDate : Option String := none
  lugarRobo : Option String := none
  lugarLocalizacion : Option String := none
  deriving Repr, DecidableEq

/-- Shape of a structured-API response body: the fields inspected by
`parseAPIResponse` (item-array candidates) and `checkHasMorePages`
(pagination metadata). `arr` models the case where the body itself is a
bare array. -/
structure ApiData where
  arr : Option (List RawItem) := none
  content : Option (List RawItem) := none
  dataArr : Option (List RawItem) := none
  bicicletas : Option (List RawItem) := none
  results : Option (List RawItem) := none
  last : Option Bool := none
  hasNext : Option Bool := none
  totalPages : Option Int := none
  number : Option Int := none
  hasMore : Option Bool := none
  deriving Repr, DecidableEq

/-- Item-array extraction of `parseAPIResponse` (route.ts lines 417-431):
bare array, then `content`, `data`, `bicicletas`, `results`, else no items. -/
def extractItems (d : ApiData) : List RawItem :=
  match d.arr with
  | some items => items
  | none =>
    match d.content with
    | some items => items
    | none =>
      match d.dataArr with
      | some items => items
      | none =>
        match d.bicicletas with
        | some items => items
        | none =>
          match d.results with
          | some items => items
          | none => []

/-- The relative-URL fix of route.ts lines 458-464:
`if (bicycle.imagen && bicycle.imagen.startsWith('/'))` prefix the
upstream origin. -/
def absolutizeIfRelative (s : String) : String :=
  if (s != "") && leadsWith ['/'] s.data then
    "https://www.biciregistro.es" ++ s
  else s

/-- Per-item normalization of `parseAPIResponse` (route.ts lines 439-464):
alias coalescing with JavaScript `||`, placeholder image default, relative
image absolutization, fixed `localizada` status. `genId` stands for the
generated unique identifier. -/
def normalizeApiItem (genId : String) (item : RawItem) : Bicycle :=
  let imagen0 := jsOrD (jsOr (jsOr item.imagen item.image) item.foto)
    "/images/bicicletas/placeholder.svg"
  let imagenCompleta0 := jsOrD (jsOr (jsOr item.imagenCompleta item.imagen) item.image)
    "/images/bicicletas/placeholder.svg"
  { id := jsOrD (jsOr item.id item.idBicicleta) genId
    marca := jsOrD (jsOr item.marca item.brand) ""
    modelo := jsOrD (jsOr item.modelo item.model) ""
    color := jsOrD item.color ""
    numeroSerie := jsOr (jsOr item.numeroSerie item.serialNumber) item.numSerie
    numeroMatricula := jsOr (jsOr item.numeroMatricula item.registrationNumber) item.numMatricula
    ciudad := jsOr item.ciudad item.city
    provincia := jsOr item.provincia item.province
    descripcion := jsOr item.descripcion item.description
    imagen := some (absolutizeIfRelative imagen0)
    imagenCompleta := some (absolutizeIfRelative imagenCompleta0)
    estado := some "localizada"
    fechaRobo := jsOr item.fechaRobo item.stolenDate
    fechaLocalizacion := jsOr item.fechaLocalizacion item.foundDate
    lugarRobo := item.lugarRobo
    lugarLocalizacion := item.lugarLocalizacion }

/-- `parseAPIResponse` (route.ts lines 413-473): extract the item array and
normalize every item. Note the source applies no retention guard here:
every extracted item becomes a record. -/
def parseAPIResponse (genId : Nat → String) (d : ApiData) : List Bicycle :=
  (extractItems d).enum.map (fun p => normalizeApiItem (genId p.1) p.2)

/-- `checkHasMorePages` (route.ts lines 476-489). -/
def checkHasMorePages (d : ApiData) : Bool :=
  if d.last == some false || d.hasNext == some true then true
  else if (match d.totalPages with
           | some tp =>
             tp != 0 && (match d.number with
                         | some n => decide (n < tp - 1)
                         | none => false)
           | none => false) then true
  else if d.hasMore == some true then true
  else false

/-- Raw fragment already passed through the Field Extractor for the HTML
scraping path (`extractText`/`extractImage` results inside
`parseBicycleData`, route.ts lines 708-723). `extractText` and
`extractImage` return `""` when nothing matches, so every field is a plain
string. -/
structure Fragment where
  marca : String := ""
  modelo : String := ""
  color : String := ""
  numeroSerie : String := ""
  numeroMatricula : String := ""
  ciudad : String := ""
  provincia : String := ""
  descripcion : String := ""
  imagen : String := ""
  fechaRobo : String := ""
  fechaLocalizacion : String := ""
  deriving Repr, DecidableEq

/-- Per-fragment normalization of `parseBicycleData` (route.ts lines
725-750): build a record only when `marca || modelo` is truthy, mapping
each `extractText(...) || undefined` to an optional field and defaulting
the image to the relative placeholder. -/
def normalizeFragment (genId : String) (f : Fragment) : Option Bicycle :=
  if (f.marca != "") || (f.modelo != "") then
    some { id := genId
           marca := f.marca
           modelo := f.modelo
           color := f.color
           numeroSerie := strOrUndef f.numeroSerie
           numeroMatricula := strOrUndef f.numeroMatricula
           ciudad := strOrUndef f.ciudad
           provincia := strOrUndef f.provincia
           descripcion := strOrUndef f.descripcion
           imagen := some (jsOrD (strOrUndef f.imagen) "/images/bicicletas/placeholder.svg")
           imagenCompleta := some (jsOrD (strOrUndef f.imagen) "/images/bicicletas/placeholder.svg")
           estado := some "localizada"
           fechaRobo := strOrUndef f.fechaRobo
           fechaLocalizacion := strOrUndef f.fechaLocalizacion }
  else none

/-- `parseBicycleData` (route.ts lines 619-763) over extracted fragments:
normalize each card fragment, keeping only retained ones, and pass the
pagination signal through (its HTML detection is abstracted as the
`hasNextPage` input). -/
def parseBicycleData (genId : Nat → String) (frags : List Fragment)
    (hasNextPage : Option Bool) : List Bicycle × Option Bool :=
  ((frags.enum.filterMap fun p => normalizeFragment (genId p.1) p.2), hasNextPage)

/-- Raw fragment of the rendered-DOM (Playwright) path after extraction
(route.ts lines 264-329): `marca`, `modelo`, `color` are plain strings from
either the table-row regexes or `extractText`; the rest are the
possibly-`undefined` locals built with `|| undefined`. -/
structure PWFragment where
  marca : String := ""
  modelo : String := ""
  color : String := ""
  imagen : Option String := none
  numeroSerie : Option String := none
  numeroMatricula : Option String := none
  ciudadFinal : Option String := none
  provincia : Option String := none
  descripcionFinal : Option String := none
  fechaRobo : Option String := none
  fechaLocalizacion : Option String := none
  deriving Repr, DecidableEq

/-- Image resolution of the Playwright path (route.ts lines 348-349):
`imagen ? (imagen.startsWith('http') ? imagen : origin + imagen) : placeholder`. -/
def pwImage (o : Option String) : String :=
  match o with
  | some s =>
    if s != "" then
      (if leadsWith "http".data s.data then s else "https://www.biciregistro.es" ++ s)
    else "/images/bicicletas/placeholder.svg"
  | none => "/images/bicicletas/placeholder.svg"

/-- Per-card normalization of `fetchBicyclesWithPlaywright` (route.ts lines
336-356): retain only when `marca || modelo || descripcionFinal` is truthy,
with the `Desconocida` / `Sin modelo` sentinels. -/
def normalizePWFragment (genId : String) (f : PWFragment) : Option Bicycle :=
  if (f.marca != "") || (f.modelo != "") || optTruthy f.descripcionFinal then
    some { id := genId
           marca := strD f.marca "Desconocida"
           modelo := strD f.modelo "Sin modelo"
           color := strD f.color ""
           numeroSerie := f.numeroSerie
           numeroMatricula := f.numeroMatricula
           ciudad := f.ciudadFinal
           provincia := f.provincia
           descripcion := f.descripcionFinal
           imagen := some (pwImage f.imagen)
           imagenCompleta := some (pwImage f.imagen)
           estado := some "localizada"
           fechaRobo := f.fechaRobo
           fechaLocalizacion := f.fechaLocalizacion }
  else none

/-- `MAX_SCRAPING_PAGES` (route.ts line 9). -/
def MAX_SCRAPING_PAGES : Nat := 100

/-- `MAX_API_PAGES` (route.ts line 8). -/
def MAX_API_PAGES : Nat := 10

/-- `maxConsecutiveEmpty` (route.ts line 497). -/
def maxConsecutiveEmpty : Nat := 2

/-- `maxRetries` of `fetchBicyclesPage` (route.ts line 535). -/
def maxRetries : Nat := 3

/-- Backoff delay of `fetchBicyclesPage` (route.ts line 608):
`Math.min(1000 * Math.pow(2, attempt - 1), 5000)`. -/
def backoffWait (attempt : Nat) : Nat :=
  min (1000 * 2 ^ (attempt - 1)) 5000

/-- The `while (hasMorePages && page <= MAX_SCRAPING_PAGES)` loop of
`fetchBicyclesViaScraping` (route.ts lines 501-525). The fuel argument is
the number of page indices still allowed by the ceiling
(`MAX_SCRAPING_PAGES - page + 1` at entry), so fuel exhaustion is exactly
`page > MAX_SCRAPING_PAGES`. Besides the accumulated records the model
returns the number of page fetches performed. -/
def scrapeGo (fetcher : Nat → List Bicycle × Option Bool) :
    Nat → Nat → Nat → List Bicycle → Nat → List Bicycle × Nat
  | 0, _, _, acc, cnt => (acc, cnt)
  | fuel + 1, page, consecEmpty, acc, cnt =>
    let r := fetcher page
    if r.1.length = 0 then
      if maxConsecutiveEmpty ≤ consecEmpty + 1 then (acc, cnt + 1)
      else scrapeGo fetcher fuel (page + 1) (consecEmpty + 1) acc (cnt + 1)
    else
      if r.2 = some false then (acc ++ r.1, cnt + 1)
      else scrapeGo fetcher fuel (page + 1) 0 (acc ++ r.1) (cnt + 1)

/-- `fetchBicyclesViaScraping` (route.ts lines 492-528) with the page-level
network layer abstracted as `fetcher filters page` (the behaviour of
`fetchBicyclesPage(filters, page)`), starting at page 1 with an empty
consecutive-empty counter. -/
def fetchBicyclesViaScraping
    (fetcher : SearchFilters → Nat → List Bicycle × Option Bool)
    (filters : SearchFilters) : List Bicycle × Nat :=
  scrapeGo (fetcher filters) MAX_SCRAPING_PAGES 1 0 [] 0

/-- Outcome of one `fetch` of the scraping page endpoint: either the
transport layer throws (timeout, connection failure) or an HTTP response
with a status and, when successful, a parsed body. -/
inductive AttemptOutcome where
  | transportError
  | response (status : Nat) (body : List Bicycle × Option Bool)
  deriving Repr, DecidableEq

/-- `response.ok`: status in the 200-299 range. -/
def responseOk (s : Nat) : Bool :=
  200 ≤ s && s ≤ 299

/-- Whether an attempt takes the catch path of `fetchBicyclesPage`: the
source throws on transport failure and on every non-success status
(route.ts lines 583-585). -/
def attemptFails (o : AttemptOutcome) : Bool :=
  match o with
  | .transportError => true
  | .response s _ => !(responseOk s)

/-- The retry loop of `fetchBicyclesPage` (route.ts lines 538-617):
`remaining` attempts are left, the current attempt is `attempt` (1-based).
Returns the page result, the number of attempts performed, and the list of
backoff waits taken (route.ts lines 606-611: a wait only happens when
another attempt remains). After exhausting all attempts the source returns
`{ bicycles: [], hasNextPage: null }` (route.ts line 616). -/
def fetchPageGo (attempts : Nat → AttemptOutcome) :
    Nat → Nat → Nat → List Nat → (List Bicycle × Option Bool) × Nat × List Nat
  | 0, _, cnt, waits => (([], none), cnt, waits)
  | r + 1, attempt, cnt, waits =>
    match attempts attempt with
    | .transportError =>
      if r = 0 then (([], none), cnt + 1, waits)
      else fetchPageGo attempts r (attempt + 1) (cnt + 1) (waits ++ [backoffWait attempt])
    | .response s body =>
      if responseOk s then (body, cnt + 1, waits)
      else if r = 0 then (([], none), cnt + 1, waits)
      else fetchPageGo attempts r (attempt + 1) (cnt + 1) (waits ++ [backoffWait attempt])

/-- `fetchBicyclesPage` (route.ts lines 531-617) over an abstract stream of
attempt outcomes: up to `maxRetries` attempts starting at attempt 1. -/
def fetchBicyclesPage (attempts : Nat → AttemptOutcome) :
    (List Bicycle × Option Bool) × Nat × List Nat :=
  fetchPageGo attempts maxRetries 1 0 []

/-- Outcome of one `fetch` against a structured-API endpoint: transport
throw, or an HTTP response carrying a status and a JSON body. -/
inductive ApiAttemptOutcome where
  | transportError
  | response (status : Nat) (body : ApiData)
  deriving Repr, DecidableEq

/-- Result of the per-endpoint/method page loop of `fetchFromRestAPI`:
either the loop completes (break or page budget exhausted) with the
accumulated records, or a transport error escapes it; in both cases the
number of requests issued to this endpoint/method is reported. -/
inductive LoopResult where
  | done (bicycles : List Bicycle) (requests : Nat)
  | threw (requests : Nat)
  deriving Repr, DecidableEq

/-- The `for (let page = 0; page < MAX_API_PAGES; page++)` loop of
`fetchFromRestAPI` for one endpoint/method combination (route.ts lines
97-160): on a successful response parse and either continue or break on
the pagination metadata; on 404/405 break (wrong endpoint shape); on
401/403 break (authentication required); on any other non-success status
the loop simply moves to the next page index; a transport error propagates
out of the loop. -/
def apiPageGo (respond : Nat → ApiAttemptOutcome) (genId : Nat → String) :
    Nat → Nat → List Bicycle → Nat → LoopResult
  | 0, _, acc, cnt => .done acc cnt
  | fuel + 1, page, acc, cnt =>
    match respond page with
    | .transportError => .threw (cnt + 1)
    | .response s body =>
      if responseOk s then
        let bicycles := parseAPIResponse genId body
        if 0 < bicycles.length then
          if checkHasMorePages body then
            apiPageGo respond genId fuel (page + 1) (acc ++ bicycles) (cnt + 1)
          else .done (acc ++ bicycles) (cnt + 1)
        else .done acc (cnt + 1)
      else if s == 404 || s == 405 then .done acc (cnt + 1)
      else if s == 401 || s == 403 then .done acc (cnt + 1)
      else apiPageGo respond genId fuel (page + 1) acc (cnt + 1)

/-- One endpoint/method pagination run of `fetchFromRestAPI`, starting at
page 0 with the full `MAX_API_PAGES` budget. -/
def restApiPageLoop (respond : Nat → ApiAttemptOutcome) (genId : Nat → String) :
    LoopResult :=
  apiPageGo respond genId MAX_API_PAGES 0 [] 0

/-- One `try { ... } catch { ... }` strategy block of
`fetchBicyclesFromBiciregistro` (route.ts lines 22-56): a strategy outcome
is either a thrown error or a record list; a non-empty list is returned
immediately (`if (result.length > 0) return result`), anything else falls
through to `next`. -/
def strategyStep (r : Except Unit (List Bicycle)) (next : List Bicycle) :
    List Bicycle :=
  match r with
  | .ok l => if 0 < l.length then l else next
  | .error _ => next

/-- `fetchBicyclesFromBiciregistro` (route.ts lines 15-70): REST API, then
Playwright, then HTML scraping, each via one `strategyStep`, with `[]` as
the final fallthrough (route.ts line 59). -/
def fetchBicyclesFromBiciregistro (api pw scrape : Except Unit (List Bicycle)) :
    List Bicycle :=
  strategyStep api (strategyStep pw (strategyStep scrape []))

/-- What the image relay decides to do with a request, up to the outbound
fetch: reject with a client-error status, or fetch the given URL upstream. -/
inductive RelayAction where
  | reject (status : Nat)
  | fetchUpstream (url : String)
  deriving Repr, DecidableEq

/-- The validation and dispatch of the image-relay `GET`
(`src/app/api/config/colors/route.ts`, image-proxy handler lines 45-68):
missing `url` parameter rejects with 400; a `url` failing
`imageUrl.includes('biciregistro.es')` rejects with 400; otherwise the URL
is fetched upstream. -/
def imageProxyGET (url : Option String) : RelayAction :=
  match url with
  | none => .reject 400
  | some u => if jsIncludes u "biciregistro.es" then .fetchUpstream u else .reject 400

/-- Modelled from the spec: the host component of a URL (the configured
upstream origin check of section 6 is stated in terms of the URL's host;
the source itself never parses the host, which is what claim C3 is about).
Everything after the first `://` up to the next `/`, `:`, `?` or `#`. -/
def afterScheme : List Char → List Char
  | [] => []
  | c :: rest =>
    if leadsWith [':', '/', '/'] (c :: rest) then rest.drop 2
    else afterScheme rest

/-- Modelled from the spec: host of a URL string, for stating which origin
a relay request actually names. -/
def urlHost (u : String) : String :=
  String.mk ((afterScheme u.data).takeWhile
    (fun c => !(c == '/' || c == ':' || c == '?' || c == '#')))

/-! ### Concrete fixtures used by witnesses and counterexamples -/

/-- A fixed identifier oracle standing for the per-item UUID generator. -/
def genId0 : Nat → String := fun _ => "generated-id"

/-- An API item with every field absent. -/
def emptyRawItem : RawItem := {}

/-- An API item whose only populated field is the `imagenCompleta` alias. -/
def rogueImageItem : RawItem := { imagenCompleta := some "https://cdn.example/pic.jpg" }

/-- An API item carrying only the `brand` alias. -/
def brandItem : RawItem := { brand := some "Trek" }

/-- A concrete record whose brand does not contain "trek". -/
def orbeaBike : Bicycle := { id := "2", marca := "Orbea", modelo := "Orca", color := "Rojo" }

/-- A concrete record whose brand contains "trek" case-insensitively. -/
def trekBike : Bicycle := { id := "1", marca := "Trek", modelo := "FX 3", color := "Azul" }

/-- A filter set supplying only the brand filter "trek". -/
def trekFilter : SearchFilters := { marca := some "trek" }

/-- The empty filter set. -/
def noFilters : SearchFilters := {}

/-- A page fetcher whose first page holds exactly `orbeaBike` with an
explicit last-page signal. -/
def orbeaFetcher : SearchFilters → Nat → List Bicycle × Option Bool :=
  fun _ p => if p = 1 then ([orbeaBike], some false) else ([], some false)

/-- A page fetcher that always returns zero records. -/
def emptyFetcher : SearchFilters → Nat → List Bicycle × Option Bool :=
  fun _ _ => ([], none)

/-- A page fetcher that always returns one record with an unknown
continuation signal. -/
def oneBikeFetcher : SearchFilters → Nat → List Bicycle × Option Bool :=
  fun _ _ => ([orbeaBike], none)

/-- An attempt stream that always times out at the transport layer. -/
def constTimeout : Nat → AttemptOutcome := fun _ => .transportError

/-- An attempt stream that always answers HTTP 404. -/
def const404 : Nat → AttemptOutcome := fun _ => .response 404 ([], none)

/-- A structured-API endpoint that always answers HTTP 404. -/
def respond404 : Nat → ApiAttemptOutcome := fun _ => .response 404 {}

/-- A fragment with no identifying signal. -/
def blankFragment : Fragment := {}

/-- A rendered-DOM fragment with no identifying signal. -/
def blankPWFragment : PWFragment := {}

/-- A fragment whose only identifying signal is the brand. -/
def trekFragment : Fragment := { marca := "Trek" }

/-- The record the scraping normalizer produces from `trekFragment`. -/
def trekFragRecord : Bicycle :=
  { id := "generated-id", marca := "Trek", modelo := "", color := ""
    imagen := some "/images/bicicletas/placeholder.svg"
    imagenCompleta := some "/images/bicicletas/placeholder.svg"
    estado := some "localizada" }

/-- The record the API normalizer produces from `emptyRawItem`. -/
def emptyItemRecord : Bicycle := normalizeApiItem "generated-id" emptyRawItem

/-- A relay request URL whose host is not the upstream origin but whose
path contains the origin as a substring. -/
def badUrl : String := "https://evil.example/biciregistro.es/x.png"

/-! ### Shared helper lemmas -/

/-- Membership through one optional filter step yields membership in the
input plus the filter predicate whenever the filter was supplied. -/
theorem mem_filterStep {b : Bicycle} {o : Option String}
    {g : String → Bicycle → Bool} {l : List Bicycle}
    (h : b ∈ filterStep o g l) :
    b ∈ l ∧ ∀ x, o = some x → g x b = true := by
  cases o with
  | none =>
    exact ⟨h, fun x hx => by cases hx⟩
  | some x =>
    simp only [filterStep] at h
    have h' := List.mem_filter.mp h
    refine ⟨h'.1, fun y hy => ?_⟩
    injection hy with he
    subst he
    exact h'.2

/-- One scraping-loop step on an empty page below the consecutive-empty
threshold. -/
theorem scrapeGo_empty_cont (f : Nat → List Bicycle × Option Bool)
    (fuel page ce : Nat) (acc : List Bicycle) (cnt : Nat)
    (hf : (f page).1 = []) (hce : ¬ maxConsecutiveEmpty ≤ ce + 1) :
    scrapeGo f (fuel + 1) page ce acc cnt =
      scrapeGo f fuel (page + 1) (ce + 1) acc (cnt + 1) := by
  simp [scrapeGo, hf, hce]

/-- One scraping-loop step on an empty page that reaches the
consecutive-empty threshold and stops. -/
theorem scrapeGo_empty_stop (f : Nat → List Bicycle × Option Bool)
    (fuel page ce : Nat) (acc : List Bicycle) (cnt : Nat)
    (hf : (f page).1 = []) (hce : maxConsecutiveEmpty ≤ ce + 1) :
    scrapeGo f (fuel + 1) page ce acc cnt = (acc, cnt + 1) := by
  simp [scrapeGo, hf, hce]

/-- One scraping-loop step on a non-empty page carrying an explicit
last-page signal: append and stop. -/
theorem scrapeGo_nonempty_last (f : Nat → List Bicycle × Option Bool)
    (fuel page ce : Nat) (acc : List Bicycle) (cnt : Nat) (bs : List Bicycle)
    (hf : f page = (bs, some false)) (hne : bs ≠ []) :
    scrapeGo f (fuel + 1) page ce acc cnt = (acc ++ bs, cnt + 1) := by
  simp [scrapeGo, hf, List.length_eq_zero, hne]

/-- Under a fetcher that always returns exactly one record with an unknown
signal, the scraping loop runs its whole fuel budget, appending one record
per page. -/
theorem scrapeGo_const_single (f : Nat → List Bicycle × Option Bool) (b : Bicycle)
    (h : ∀ p, f p = ([b], none)) :
    ∀ (n page : Nat) (acc : List Bicycle) (cnt : Nat),
      scrapeGo f n page 0 acc cnt = (acc ++ List.replicate n b, cnt + n) := by
  intro n
  induction n with
  | zero =>
    intro page acc cnt
    simp [scrapeGo]
  | succ m ih =>
    intro page acc cnt
    have step : scrapeGo f (m + 1) page 0 acc cnt =
        scrapeGo f m (page + 1) 0 (acc ++ [b]) (cnt + 1) := by
      simp [scrapeGo, h page]
    rw [step, ih (page + 1) (acc ++ [b]) (cnt + 1)]
    simp only [Prod.mk.injEq]
    constructor
    · rw [List.replicate_succ, List.append_assoc, List.singleton_append]
    · omega

/-- One failing attempt of the page-fetch retry loop: wait and retry when
attempts remain, otherwise give up with the empty/unknown result. -/
theorem fetchPageGo_fail_step (attempts : Nat → AttemptOutcome)
    (r attempt cnt : Nat) (waits : List Nat)
    (hf : attemptFails (attempts attempt) = true) :
    fetchPageGo attempts (r + 1) attempt cnt waits =
      if r = 0 then (([], none), cnt + 1, waits)
      else fetchPageGo attempts r (attempt + 1) (cnt + 1)
        (waits ++ [backoffWait attempt]) := by
  cases hA : attempts attempt with
  | transportError => simp [fetchPageGo, hA]
  | response s body =>
    have hok : responseOk s = false := by
      rw [hA] at hf
      simpa [attemptFails] using hf
    simp [fetchPageGo, hA, hok]

/-- A page fetch whose three attempts all fail returns the empty/unknown
result after exactly three attempts, with the two backoff waits. -/
theorem fetchPage_all_fail (attempts : Nat → AttemptOutcome)
    (h : ∀ a, attemptFails (attempts a) = true) :
    fetchBicyclesPage attempts = (([], none), 3, [backoffWait 1, backoffWait 2]) := by
  have s1 : fetchPageGo attempts 3 1 0 [] =
      fetchPageGo attempts 2 2 1 [backoffWait 1] := by
    simpa using fetchPageGo_fail_step attempts 2 1 0 [] (h 1)
  have s2 : fetchPageGo attempts 2 2 1 [backoffWait 1] =
      fetchPageGo attempts 1 3 2 [backoffWait 1, backoffWait 2] := by
    simpa using fetchPageGo_fail_step attempts 1 2 1 [backoffWait 1] (h 2)
  have s3 : fetchPageGo attempts 1 3 2 [backoffWait 1, backoffWait 2] =
      (([], none), 3, [backoffWait 1, backoffWait 2]) := by
    simpa using fetchPageGo_fail_step attempts 0 3 2 [backoffWait 1, backoffWait 2] (h 3)
  show fetchPageGo attempts maxRetries 1 0 [] = _
  rw [show maxRetries = 3 from rfl, s1, s2, s3]

/-- A retained scraping fragment has a non-empty brand or model. -/
theorem normalizeFragment_retention {genId : String} {f : Fragment} {r : Bicycle}
    (h : normalizeFragment genId f = some r) :
    r.marca ≠ "" ∨ r.modelo ≠ "" := by
  unfold normalizeFragment at h
  split at h
  · next hc =>
    injection h with h'
    subst h'
    simpa using hc
  · exact absurd h (by simp)

/-- A strategy outcome that contributes nothing: it threw, or it returned
the empty list. -/
def strategyEmptyOrThrows (r : Except Unit (List Bicycle)) : Prop :=
  r = .error () ∨ r = .ok []

/-- An empty-or-throwing strategy step falls through to the next strategy. -/
theorem strategyStep_pass (r : Except Unit (List Bicycle)) (next : List Bicycle)
    (hr : strategyEmptyOrThrows r) : strategyStep r next = next := by
  rcases hr with rfl | rfl <;> simp [strategyStep]

/-- A non-empty successful strategy step returns its own list. -/
theorem strategyStep_hit (l : List Bicycle) (next : List Bicycle) (hl : l ≠ []) :
    strategyStep (.ok l) next = l := by
  have := List.length_pos.mpr hl
  simp [strategyStep, this]

/-! ### Claim theorems -/

/-- C3 (code bug): the image relay is specified to reject any URL whose
host is not the upstream origin without fetching it, but the source
validates with `imageUrl.includes('biciregistro.es')` — a substring test —
so a URL hosted on `evil.example` whose path merely contains
`biciregistro.es` passes validation and is fetched upstream. -/
theorem image_relay_open_proxy_bug :
    urlHost badUrl = "evil.example" ∧
    urlHost badUrl ≠ "biciregistro.es" ∧
    urlHost badUrl ≠ "www.biciregistro.es" ∧
    imageProxyGET (some badUrl) = .fetchUpstream badUrl := by
  refine ⟨by decide, by decide, by decide, by decide⟩

/-- C4: the orchestrator tries the structured API, then the rendered-DOM
strategy, then HTML scraping, in that fixed order; it returns the first
non-empty result; a strategy that throws (or comes back empty) falls
through to the next; and when every strategy is empty or throws it returns
the empty list rather than an error. -/
theorem orchestrator_fallback_contract :
    (∀ (l : List Bicycle) (pw scrape : Except Unit (List Bicycle)),
        l ≠ [] → fetchBicyclesFromBiciregistro (.ok l) pw scrape = l) ∧
    (∀ (api : Except Unit (List Bicycle)) (l : List Bicycle)
        (scrape : Except Unit (List Bicycle)),
        strategyEmptyOrThrows api → l ≠ [] →
        fetchBicyclesFromBiciregistro api (.ok l) scrape = l) ∧
    (∀ (api pw : Except Unit (List Bicycle)) (l : List Bicycle),
        strategyEmptyOrThrows api → strategyEmptyOrThrows pw → l ≠ [] →
        fetchBicyclesFromBiciregistro api pw (.ok l) = l) ∧
    (∀ (api pw scrape : Except Unit (List Bicycle)),
        strategyEmptyOrThrows api → strategyEmptyOrThrows pw →
        strategyEmptyOrThrows scrape →
        fetchBicyclesFromBiciregistro api pw scrape = []) := by
  refine ⟨?_, ?_, ?_, ?_⟩
  · intro l pw scrape hl
    show strategyStep (.ok l) (strategyStep pw (strategyStep scrape [])) = l
    exact strategyStep_hit l _ hl
  · intro api l scrape hapi hl
    show strategyStep api (strategyStep (.ok l) (strategyStep scrape [])) = l
    rw [strategyStep_pass api _ hapi, strategyStep_hit l _ hl]
  · intro api pw l hapi hpw hl
    show strategyStep api (strategyStep pw (strategyStep (.ok l) [])) = l
    rw [strategyStep_pass api _ hapi, strategyStep_pass pw _ hpw,
      strategyStep_hit l _ hl]
  · intro api pw scrape h1 h2 h3
    show strategyStep api (strategyStep pw (strategyStep scrape [])) = []
    rw [strategyStep_pass api _ h1, strategyStep_pass pw _ h2,
      strategyStep_pass scrape _ h3]

/-- Witness for C4: the structured API returns empty and the rendered-DOM
strategy throws, yet the orchestrator still adopts the scraping result. -/
theorem orchestrator_fallback_contract_witness :
    fetchBicyclesFromBiciregistro (.ok []) (.error ()) (.ok [orbeaBike]) = [orbeaBike] :=
  orchestrator_fallback_contract.2.2.1 (.ok []) (.error ()) [orbeaBike]
    (Or.inr rfl) (Or.inl rfl) (by decide)

/-- C5: under a page fetcher that always returns zero records (whatever the
continuation signal), the HTML scraping strategy performs exactly 2 page
fetches — stopping when the consecutive-empty counter reaches 2 — and
returns the empty list. -/
theorem scraping_stops_after_two_empty_pages
    (fetcher : SearchFilters → Nat → List Bicycle × Option Bool)
    (filters : SearchFilters)
    (h : ∀ p, (fetcher filters p).1 = []) :
    fetchBicyclesViaScraping fetcher filters = ([], 2) := by
  show scrapeGo (fetcher filters) MAX_SCRAPING_PAGES 1 0 [] 0 = ([], 2)
  rw [show MAX_SCRAPING_PAGES = 99 + 1 from rfl,
    scrapeGo_empty_cont (fetcher filters) 99 1 0 [] 0 (h 1) (by decide),
    show (99 : Nat) = 98 + 1 from rfl,
    scrapeGo_empty_stop (fetcher filters) 98 2 1 [] 1 (h 2) (by decide)]

/-- Witness for C5 at a concrete always-empty fetcher. -/
theorem scraping_stops_after_two_empty_pages_witness :
    fetchBicyclesViaScraping emptyFetcher noFilters = ([], 2) :=
  scraping_stops_after_two_empty_pages emptyFetcher noFilters (fun _ => rfl)

/-- C6: under a page fetcher that always returns exactly one record with an
unknown (null) continuation signal, the HTML scraping strategy fetches
exactly 100 pages — the hard ceiling — and returns the 100 accumulated
records. -/
theorem scraping_hits_page_ceiling
    (fetcher : SearchFilters → Nat → List Bicycle × Option Bool)
    (filters : SearchFilters) (b : Bicycle)
    (h : ∀ p, fetcher filters p = ([b], none)) :
    fetchBicyclesViaScraping fetcher filters = (List.replicate 100 b, 100) := by
  show scrapeGo (fetcher filters) MAX_SCRAPING_PAGES 1 0 [] 0 = _
  rw [scrapeGo_const_single (fetcher filters) b h MAX_SCRAPING_PAGES 1 [] 0]
  simp [MAX_SCRAPING_PAGES]

/-- Witness for C6 at a concrete one-record fetcher. -/
theorem scraping_hits_page_ceiling_witness :
    fetchBicyclesViaScraping oneBikeFetcher noFilters =
      (List.replicate 100 orbeaBike, 100) :=
  scraping_hits_page_ceiling oneBikeFetcher noFilters orbeaBike (fun _ => rfl)

/-- C7: when all three attempts of the page fetcher fail (transport error
or non-success status), it performs exactly 3 attempts, waits
`min(1000·2^(attempt-1), 5000)` milliseconds — 1000 then 2000 — between
them, and returns the empty record list with the unknown (null)
continuation signal instead of propagating the failure. -/
theorem page_fetcher_exhausts_retries (attempts : Nat → AttemptOutcome)
    (h : ∀ a, attemptFails (attempts a) = true) :
    fetchBicyclesPage attempts = (([], none), 3, [backoffWait 1, backoffWait 2]) ∧
    backoffWait 1 = min (1000 * 2 ^ 0) 5000 ∧
    backoffWait 2 = min (1000 * 2 ^ 1) 5000 ∧
    [backoffWait 1, backoffWait 2] = [1000, 2000] :=
  ⟨fetchPage_all_fail attempts h, by decide, by decide, by decide⟩

/-- Witness for C7 at a concrete always-timing-out attempt stream. -/
theorem page_fetcher_exhausts_retries_witness :
    fetchBicyclesPage constTimeout = (([], none), 3, [backoffWait 1, backoffWait 2]) ∧
    backoffWait 1 = min (1000 * 2 ^ 0) 5000 ∧
    backoffWait 2 = min (1000 * 2 ^ 1) 5000 ∧
    [backoffWait 1, backoffWait 2] = [1000, 2000] :=
  page_fetcher_exhausts_retries constTimeout (fun _ => rfl)

/-- C1 counterexample: the HTML scraping strategy applies no local
post-filter — with the brand filter "trek" supplied it still returns a
record whose brand "Orbea" fails that filter, so the post-filter is not
applied identically across strategies. -/
theorem scraping_ignores_filters_cx :
    (fetchBicyclesViaScraping orbeaFetcher trekFilter).1 = [orbeaBike] ∧
    specMatchesFilters trekFilter orbeaBike = false := by
  refine ⟨by decide, by decide⟩

/-- C1 amended: the local post-filter exists only in the rendered-DOM
strategy; every record surviving it satisfies all supplied per-field
filters (case-insensitive substring, AND semantics, the general term OR'd
across brand/model/color/city/province/description), while the HTML
scraping strategy returns fetched records without any local filtering. -/
theorem rendered_dom_post_filter_sound :
    (∀ (f : SearchFilters) (l : List Bicycle) (b : Bicycle),
        b ∈ applyFilters f l → b ∈ l ∧ specMatchesFilters f b = true) ∧
    (∀ (fetcher : SearchFilters → Nat → List Bicycle × Option Bool)
        (f : SearchFilters) (bs : List Bicycle),
        fetcher f 1 = (bs, some false) → bs ≠ [] →
        (fetchBicyclesViaScraping fetcher f).1 = bs) := by
  constructor
  · intro f l b h
    unfold applyFilters at h
    obtain ⟨h, hterm⟩ := mem_filterStep h
    obtain ⟨h, hmat⟩ := mem_filterStep h
    obtain ⟨h, hser⟩ := mem_filterStep h
    obtain ⟨h, hprov⟩ := mem_filterStep h
    obtain ⟨h, hciu⟩ := mem_filterStep h
    obtain ⟨h, hcol⟩ := mem_filterStep h
    obtain ⟨h, hmod⟩ := mem_filterStep h
    obtain ⟨h, hmar⟩ := mem_filterStep h
    refine ⟨h, ?_⟩
    have m1 : fieldFilterOk f.marca (some b.marca) = true := by
      cases hx : f.marca with
      | none => rfl
      | some x => exact hmar x hx
    have m2 : fieldFilterOk f.modelo (some b.modelo) = true := by
      cases hx : f.modelo with
      | none => rfl
      | some x => exact hmod x hx
    have m3 : fieldFilterOk f.color (some b.color) = true := by
      cases hx : f.color with
      | none => rfl
      | some x => exact hcol x hx
    have m4 : fieldFilterOk f.numeroSerie b.numeroSerie = true := by
      cases hx : f.numeroSerie with
      | none => rfl
      | some x => exact hser x hx
    have m5 : fieldFilterOk f.numeroMatricula b.numeroMatricula = true := by
      cases hx : f.numeroMatricula with
      | none => rfl
      | some x => exact hmat x hx
    have m6 : fieldFilterOk f.ciudad b.ciudad = true := by
      cases hx : f.ciudad with
      | none => rfl
      | some x => exact hciu x hx
    have m7 : fieldFilterOk f.provincia b.provincia = true := by
      cases hx : f.provincia with
      | none => rfl
      | some x => exact hprov x hx
    have m8 : (match f.searchTerm with
               | none => true
               | some t => generalTermMatch b t) = true := by
      cases hx : f.searchTerm with
      | none => rfl
      | some t => exact hterm t hx
    unfold specMatchesFilters
    rw [m1, m2, m3, m4, m5, m6, m7, m8]
    rfl
  · intro fetcher f bs hf hne
    have e : scrapeGo (fetcher f) (99 + 1) 1 0 [] 0 = ([] ++ bs, 0 + 1) :=
      scrapeGo_nonempty_last (fetcher f) 99 1 0 [] 0 bs hf hne
    show (scrapeGo (fetcher f) MAX_SCRAPING_PAGES 1 0 [] 0).1 = bs
    rw [show MAX_SCRAPING_PAGES = 99 + 1 from rfl, e]
    simp

/-- Witness for C1 amended: the post-filter keeps exactly the matching
record, and the scraping strategy hands back its fetched page unchanged. -/
theorem rendered_dom_post_filter_sound_witness :
    (trekBike ∈ [trekBike, orbeaBike] ∧
      specMatchesFilters trekFilter trekBike = true) ∧
    (fetchBicyclesViaScraping orbeaFetcher trekFilter).1 = [orbeaBike] :=
  ⟨rendered_dom_post_filter_sound.1 trekFilter [trekBike, orbeaBike] trekBike
      (by decide),
   rendered_dom_post_filter_sound.2 orbeaFetcher trekFilter [orbeaBike]
      rfl (by decide)⟩

/-- C2 counterexample: `parseAPIResponse` applies no retention guard — an
API item whose brand, model and description are all absent still yields an
output record with empty brand, empty model and no description. -/
theorem api_normalizer_retains_empty_item_cx :
    (parseAPIResponse genId0 { arr := some [emptyRawItem] }).map
      (fun r => (r.marca, r.modelo, r.descripcion)) = [("", "", none)] := by
  decide

/-- C2 amended: the retention invariant holds for the DOM-based
normalizers — the HTML scraping normalizer drops any fragment with empty
brand and model (so a fragment with no identifying signal never reaches
its output), and the rendered-DOM normalizer drops any fragment with empty
brand, empty model and falsy description — but the structured-API
normalizer `parseAPIResponse` performs no such filtering. -/
theorem dom_normalizers_retention_invariant :
    (∀ (genId : String) (f : Fragment),
        f.marca = "" → f.modelo = "" → normalizeFragment genId f = none) ∧
    (∀ (genId : Nat → String) (frags : List Fragment) (hnp : Option Bool)
        (r : Bicycle), r ∈ (parseBicycleData genId frags hnp).1 →
        r.marca ≠ "" ∨ r.modelo ≠ "") ∧
    (∀ (genId : String) (f : PWFragment),
        f.marca = "" → f.modelo = "" → optTruthy f.descripcionFinal = false →
        normalizePWFragment genId f = none) := by
  refine ⟨?_, ?_, ?_⟩
  · intro genId f h1 h2
    simp [normalizeFragment, h1, h2]
  · intro genId frags hnp r hr
    simp only [parseBicycleData, List.mem_filterMap] at hr
    obtain ⟨p, _, hp⟩ := hr
    exact normalizeFragment_retention hp
  · intro genId f h1 h2 h3
    simp [normalizePWFragment, h1, h2, h3]

/-- Witness for C2 amended at concrete fragments: blank fragments are
dropped by both DOM normalizers, and a retained record keeps its signal. -/
theorem dom_normalizers_retention_invariant_witness :
    normalizeFragment "generated-id" blankFragment = none ∧
    (trekFragRecord.marca ≠ "" ∨ trekFragRecord.modelo ≠ "") ∧
    normalizePWFragment "generated-id" blankPWFragment = none :=
  ⟨dom_normalizers_retention_invariant.1 "generated-id" blankFragment rfl rfl,
   dom_normalizers_retention_invariant.2.1 genId0 [trekFragment] none
      trekFragRecord (by decide),
   dom_normalizers_retention_invariant.2.2 "generated-id" blankPWFragment
      rfl rfl rfl⟩

/-- C8 counterexample: in the HTML scraping page fetcher a 404 response is
retried — three attempts are made against the same endpoint/method — so a
404 is not "never retried". -/
theorem scraping_404_retried_cx :
    (fetchBicyclesPage const404).2.1 = 3 := by decide

/-- C8 amended: in the structured-API page loop a 404/405 response stops
that endpoint/method after exactly one request (wrong endpoint shape — no
retry, advance to the next candidate), but the HTML scraping page fetcher
throws on every non-success status, so there 404/405 are retried through
the full 3-attempt budget exactly like timeouts and 5xx. -/
theorem api_404_stops_endpoint_scraping_retries_any_failure :
    (∀ (respond : Nat → ApiAttemptOutcome) (genId : Nat → String)
        (s : Nat) (body : ApiData),
        respond 0 = .response s body → (s = 404 ∨ s = 405) →
        restApiPageLoop respond genId = .done [] 1) ∧
    (∀ (attempts : Nat → AttemptOutcome),
        (∀ a, attemptFails (attempts a) = true) →
        (fetchBicyclesPage attempts).2.1 = 3) := by
  constructor
  · intro respond genId s body h0 hs
    show apiPageGo respond genId MAX_API_PAGES 0 [] 0 = .done [] 1
    rw [show MAX_API_PAGES = 9 + 1 from rfl]
    rcases hs with rfl | rfl <;> simp [apiPageGo, h0, responseOk]
  · intro attempts h
    rw [fetchPage_all_fail attempts h]

/-- Witness for C8 amended: a concrete 404-answering endpoint is probed
once, while the scraping fetcher retries a constant 404 three times. -/
theorem api_404_stops_endpoint_scraping_retries_any_failure_witness :
    restApiPageLoop respond404 genId0 = .done [] 1 ∧
    (fetchBicyclesPage const404).2.1 = 3 :=
  ⟨api_404_stops_endpoint_scraping_retries_any_failure.1 respond404 genId0
      404 {} rfl (Or.inl rfl),
   api_404_stops_endpoint_scraping_retries_any_failure.2 const404
      (fun _ => rfl)⟩

/-- C9: alias round-trip — an API item whose `brand` field is non-empty
and whose canonical `marca` key is absent normalizes to a record whose
brand equals the `brand` value, because aliases are coalesced preferring
the first non-empty one. -/
theorem api_brand_alias_roundtrip (genId : Nat → String) (item : RawItem)
    (b : String) (hm : item.marca = none) (hb : item.brand = some b)
    (hne : b ≠ "") :
    (parseAPIResponse genId { arr := some [item] }).map Bicycle.marca = [b] := by
  have ht : optTruthy (some b) = true := by simp [optTruthy, hne]
  simp [parseAPIResponse, extractItems, normalizeApiItem, jsOrD, jsOr,
    hm, hb, ht, optTruthy]
  intro he
  exact absurd he hne

/-- Witness for C9 at a concrete brand-only item. -/
theorem api_brand_alias_roundtrip_witness :
    (parseAPIResponse genId0 { arr := some [brandItem] }).map Bicycle.marca =
      ["Trek"] :=
  api_brand_alias_roundtrip genId0 brandItem "Trek" rfl rfl (by decide)

/-- C10 counterexample: an API item whose `imagen`, `image` and `foto`
fields are all absent but whose `imagenCompleta` alias is populated yields
a record whose `imagenCompleta` is that alias value, not the absolutized
placeholder the claim asserts. -/
theorem api_image_default_cx :
    (parseAPIResponse genId0 { arr := some [rogueImageItem] }).map
      (fun r => (r.imagen, r.imagenCompleta)) =
      [(some "https://www.biciregistro.es/images/bicicletas/placeholder.svg",
        some "https://cdn.example/pic.jpg")] := by decide

/-- C10 amended: when an API item's `imagen`, `image`, `foto` and also its
`imagenCompleta` alias are all absent or empty, both image fields default
to the placeholder and — since it starts with `/` — are absolutized
against the upstream origin; the HTML scraping normalizer leaves the
placeholder relative; and both normalizers always produce defined image
fields. -/
theorem image_placeholder_defaults :
    (∀ (genId : Nat → String) (item : RawItem),
        optTruthy item.imagen = false → optTruthy item.image = false →
        optTruthy item.foto = false → optTruthy item.imagenCompleta = false →
        ∀ r ∈ parseAPIResponse genId { arr := some [item] },
          r.imagen = some "https://www.biciregistro.es/images/bicicletas/placeholder.svg" ∧
          r.imagenCompleta = some "https://www.biciregistro.es/images/bicicletas/placeholder.svg") ∧
    (∀ (genId : String) (frag : Fragment) (r : Bicycle),
        frag.imagen = "" → normalizeFragment genId frag = some r →
        r.imagen = some "/images/bicicletas/placeholder.svg" ∧
        r.imagenCompleta = some "/images/bicicletas/placeholder.svg") ∧
    (∀ (genId : Nat → String) (d : ApiData) (r : Bicycle),
        r ∈ parseAPIResponse genId d →
        r.imagen ≠ none ∧ r.imagenCompleta ≠ none) ∧
    (∀ (genId : String) (frag : Fragment) (r : Bicycle),
        normalizeFragment genId frag = some r →
        r.imagen ≠ none ∧ r.imagenCompleta ≠ none) := by
  refine ⟨?_, ?_, ?_, ?_⟩
  · intro genId item h1 h2 h3 h4 r hr
    simp only [parseAPIResponse, extractItems, List.enum, List.enumFrom,
      List.map_cons, List.map_nil, List.mem_singleton] at hr
    subst hr
    simp [normalizeApiItem, jsOr, jsOrD, h1, h2, h3, h4, absolutizeIfRelative,
      leadsWith]
  · intro genId frag r h1 h2
    unfold normalizeFragment at h2
    split at h2
    · injection h2 with h'
      subst h'
      simp [h1, strOrUndef, jsOrD, optTruthy]
    · exact absurd h2 (by simp)
  · intro genId d r hr
    simp only [parseAPIResponse, List.mem_map] at hr
    obtain ⟨p, _, hp⟩ := hr
    subst hp
    simp [normalizeApiItem]
  · intro genId frag r h
    unfold normalizeFragment at h
    split at h
    · injection h with h'
      subst h'
      simp
    · exact absurd h (by simp)

/-- Witness for C10 amended at the all-absent item and a retained
fragment. -/
theorem image_placeholder_defaults_witness :
    (emptyItemRecord.imagen =
        some "https://www.biciregistro.es/images/bicicletas/placeholder.svg" ∧
      emptyItemRecord.imagenCompleta =
        some "https://www.biciregistro.es/images/bicicletas/placeholder.svg") ∧
    (trekFragRecord.imagen = some "/images/bicicletas/placeholder.svg" ∧
      trekFragRecord.imagenCompleta = some "/images/bicicletas/placeholder.svg") ∧
    (emptyItemRecord.imagen ≠ none ∧ emptyItemRecord.imagenCompleta ≠ none) :=
  ⟨image_placeholder_defaults.1 genId0 emptyRawItem rfl rfl rfl rfl
      emptyItemRecord (by decide),
   image_placeholder_defaults.2.1 "generated-id" trekFragment trekFragRecord
      rfl (by decide),
   image_placeholder_defaults.2.2.1 genId0 { arr := some [emptyRawItem] }
      emptyItemRecord (by decide)⟩

end Biciregistro
